import Mathlib

/-!
Verification of the NIDAR GCS demo stub (`gcs_interface_stub.py`) against its
natural-language specification.

Part 1 embeds the code that actually exists in the source file: the
`DroneState` and `DetectionEvent` dataclasses, the `NIDAR_GCS` window state
(`drone_states`, `detection_events`), the no-op telemetry timer callback, the
`TelemetryParser.CSV_FIELDS` schema and the stub `parse_packet`.

Part 2 models, from the specification's words, the telemetry ingestion
pipeline (Packet Codec `decode`, Drone State Store `apply`/`get`, Mission
Database logging/queries) whose implementation is absent from the source:
the source only declares stubs (`parse_packet`, `log_telemetry`,
`log_detection` are all `pass`).

Python floats carry only exactly representable literals here (0.0 and parsed
decimal text), so they are modelled as rationals; Python ints as `Int`;
exceptions as the error channel of `Except`.
-/

/-- The `DroneState` dataclass of the source, with its default field values
(`team_id="1000"`, `mission_time="--:--:--"`, `altitude=0.0`, `battery=0`,
`lat=0.0`, `lon=0.0`, `link_status="GOOD"`, `autonomy_mode="AUTO"`,
`geofence_breach=0`, `payload_status="NONE"`). -/
structure DroneState where
  drone_id : Int
  team_id : String := "1000"
  mission_time : String := "--:--:--"
  altitude : Rat := 0
  battery : Int := 0
  lat : Rat := 0
  lon : Rat := 0
  link_status : String := "GOOD"
  autonomy_mode : String := "AUTO"
  geofence_breach : Int := 0
  payload_status : String := "NONE"
deriving DecidableEq

/-- The `DetectionEvent` dataclass of the source (timestamp modelled as a
natural number; confidence 0.0-1.0 as a rational). -/
structure DetectionEvent where
  timestamp : Nat
  drone_id : Int
  detection_type : String
  confidence : Rat
  lat : Rat
  lon : Rat
deriving DecidableEq

/-- The data-bearing state of the `NIDAR_GCS` main window: the
`drone_states` dict (keyed by drone id) and the `detection_events` list.
UI widgets hold no telemetry data and are out of scope. -/
structure NIDAR_GCS where
  drone_states : Int → Option DroneState
  detection_events : List DetectionEvent

/-- Constructor `NIDAR_GCS.__init__`: drone_states maps id 1 to
`DroneState(1)` and id 2 to `DroneState(2)`, and `detection_events` starts
empty. -/
def NIDAR_GCS.init : NIDAR_GCS where
  drone_states := fun i =>
    if i = 1 then some { drone_id := 1 }
    else if i = 2 then some { drone_id := 2 }
    else none
  detection_events := []

/-- Callback `NIDAR_GCS.update_telemetry`: its body is `pass`; it changes
nothing. -/
def NIDAR_GCS.update_telemetry (g : NIDAR_GCS) : NIDAR_GCS := g

/-- The period passed to `self.telemetry_timer.start(1000)` in `init_timers`. -/
def NIDAR_GCS.telemetry_timer_period_ms : Nat := 1000

/-- Reachable program states: the constructed window, plus anything the
1 Hz timer callback produces from a reachable state. No other code in the
source writes `drone_states` or `detection_events`. -/
inductive NIDAR_GCS.Reachable : NIDAR_GCS → Prop
  | init : NIDAR_GCS.Reachable NIDAR_GCS.init
  | tick {g : NIDAR_GCS} : NIDAR_GCS.Reachable g →
      NIDAR_GCS.Reachable (NIDAR_GCS.update_telemetry g)

/-- Schema `TelemetryParser.CSV_FIELDS` exactly as listed in the source. -/
def TelemetryParser.CSV_FIELDS : List String :=
  ["DRONE_ID", "TEAM_ID", "MISSION_TIME", "PACKET_COUNT", "MODE", "STATE",
   "ALTITUDE", "TEMP", "PRESSURE", "VOLTAGE",
   "GYRO_R", "GYRO_P", "GYRO_Y", "ACCEL_R", "ACCEL_P", "ACCEL_Y",
   "MAG_R", "MAG_P", "MAG_Y", "GPS_TIME", "GPS_ALT", "LAT", "LON", "SATS",
   "BATTERY", "LINK_STATUS", "AUTONOMY_MODE", "GEOFENCE_BREACH",
   "PAYLOAD_STATUS", "DETECTION_FLAG", "DETECTION_TYPE",
   "DETECTION_CONF", "DETECTION_LAT", "DETECTION_LON", "CMD_ECHO"]

/-- Stub `TelemetryParser.parse_packet`: its body is `pass`, so for every
input it returns `None` and can raise no exception. The `Except` error
channel models Python exceptions; the stub never uses it. -/
def TelemetryParser.parse_packet (csv_line : String) :
    Except String (Option DroneState) :=
  Except.ok none

/-!
Part 2: the ingestion pipeline modelled from the specification. The source
declares `TelemetryParser.parse_packet`, `MissionDatabase.log_telemetry` and
`MissionDatabase.log_detection` but their implementations are absent (every
body is `pass`), so the Packet Codec, Drone State Store and Persistence Sink
below are built from the specification's component contracts.
-/

/-- Splitting a character list at a delimiter; `[]` splits to `[[]]`,
matching Python `str.split` on its separator form. -/
def splitFieldsAux (c : Char) : List Char → List Char → List (List Char)
  | [], acc => [acc.reverse]
  | x :: xs, acc =>
    if x = c then acc.reverse :: splitFieldsAux c xs []
    else splitFieldsAux c xs (x :: acc)

/-- Modelled from the spec: "split on delimiter" for the comma-delimited
telemetry record (step one of the Packet Codec decode). -/
def splitFields (raw : String) : List (List Char) :=
  splitFieldsAux ',' raw.data []

/-- Numeric value of a decimal digit character. -/
def digitVal (c : Char) : Option Nat :=
  if '0' ≤ c ∧ c ≤ '9' then some (c.toNat - 48) else none

def parseDigitsAux : List Char → Nat → Option Nat
  | [], acc => some acc
  | c :: cs, acc =>
    match digitVal c with
    | some d => parseDigitsAux cs (10 * acc + d)
    | none => none

/-- A non-empty string of decimal digits, as a natural number. -/
def parseDigits : List Char → Option Nat
  | [] => none
  | cs => parseDigitsAux cs 0

/-- Modelled from the spec: parsing an "integer" semantic field (optional
leading minus sign, then decimal digits). -/
def parseInteger (cs : List Char) : Option Int :=
  match cs with
  | '-' :: rest => (parseDigits rest).map (fun n => -(n : Int))
  | _ => (parseDigits cs).map (fun n => (n : Int))

/-- Unsigned decimal number with an optional fractional part. -/
def parseUnsignedRat (cs : List Char) : Option Rat :=
  match splitFieldsAux '.' cs [] with
  | [ip] => (parseDigits ip).map (fun n => (n : Rat))
  | [ip, fp] =>
    match parseDigits ip, parseDigits fp with
    | some i, some f => some ((i : Rat) + (f : Rat) / ((10 : Rat) ^ fp.length))
    | _, _ => none
  | _ => none

/-- Modelled from the spec: parsing a "float" semantic field (optional
leading minus sign, decimal digits, optional fractional part), as an exact
rational. -/
def parseFloat (cs : List Char) : Option Rat :=
  match cs with
  | '-' :: rest => (parseUnsignedRat rest).map (fun q => -q)
  | _ => parseUnsignedRat cs

/-- Modelled from the spec: the decode-time error taxonomy
(`FieldCountMismatch`, `FieldParseError`, `FieldRangeError`). -/
inductive DecodeError where
  | FieldCountMismatch (found : Nat)
  | FieldParseError (field : String)
  | FieldRangeError (field : String) (value : Rat)
deriving DecidableEq

/-- Modelled from the spec: the apply-time error (`StalePacket`). -/
inductive ApplyError where
  | StalePacket
deriving DecidableEq

/-- Modelled from the spec: the fully-populated telemetry snapshot, one
field per entry of the 35-field wire format. -/
structure SpecDroneState where
  drone_id : Int
  team_id : String
  mission_time : String
  packet_count : Int
  mode : String
  state : String
  altitude : Rat
  temp : Rat
  pressure : Rat
  voltage : Rat
  gyro_r : Rat
  gyro_p : Rat
  gyro_y : Rat
  accel_r : Rat
  accel_p : Rat
  accel_y : Rat
  mag_r : Rat
  mag_p : Rat
  mag_y : Rat
  gps_time : String
  gps_alt : Rat
  lat : Rat
  lon : Rat
  sats : Int
  battery : Int
  link_status : String
  autonomy_mode : String
  geofence_breach : Int
  payload_status : String
  detection_flag : Int
  detection_type : String
  detection_conf : Rat
  detection_lat : Rat
  detection_lon : Rat
  cmd_echo : String
deriving DecidableEq

/-- Modelled from the spec: the immutable detection record (timestamp,
drone id, detection type, confidence, lat, lon). -/
structure SpecDetectionEvent where
  timestamp : Nat
  drone_id : Int
  detection_type : String
  confidence : Rat
  lat : Rat
  lon : Rat
deriving DecidableEq

/-- Field at position `i` of the split record. -/
def fieldAt (fs : List (List Char)) (i : Nat) : List Char := fs.getD i []

/-- Integer field or `FieldParseError` naming the field. -/
def reqInteger (name : String) (cs : List Char) : Except DecodeError Int :=
  match parseInteger cs with
  | some v => Except.ok v
  | none => Except.error (DecodeError.FieldParseError name)

/-- Float field or `FieldParseError` naming the field. -/
def reqFloat (name : String) (cs : List Char) : Except DecodeError Rat :=
  match parseFloat cs with
  | some v => Except.ok v
  | none => Except.error (DecodeError.FieldParseError name)

/-- Detection-type enum field: one of HUMAN, CROP, NONE. -/
def reqDetectionType (cs : List Char) : Except DecodeError String :=
  let s := String.mk cs
  if s = "HUMAN" ∨ s = "CROP" ∨ s = "NONE" then Except.ok s
  else Except.error (DecodeError.FieldParseError "DETECTION_TYPE")

/-- Modelled from the spec: "parse each field per its semantic type
(integer, float, enum-string, GPS coordinate); fail with
`FieldParseError{field_name}` on first unparsable field". Positions follow
`TelemetryParser.CSV_FIELDS`. -/
def parseFields (fs : List (List Char)) : Except DecodeError SpecDroneState := do
  let drone_id ← reqInteger "DRONE_ID" (fieldAt fs 0)
  let packet_count ← reqInteger "PACKET_COUNT" (fieldAt fs 3)
  let altitude ← reqFloat "ALTITUDE" (fieldAt fs 6)
  let temp ← reqFloat "TEMP" (fieldAt fs 7)
  let pressure ← reqFloat "PRESSURE" (fieldAt fs 8)
  let voltage ← reqFloat "VOLTAGE" (fieldAt fs 9)
  let gyro_r ← reqFloat "GYRO_R" (fieldAt fs 10)
  let gyro_p ← reqFloat "GYRO_P" (fieldAt fs 11)
  let gyro_y ← reqFloat "GYRO_Y" (fieldAt fs 12)
  let accel_r ← reqFloat "ACCEL_R" (fieldAt fs 13)
  let accel_p ← reqFloat "ACCEL_P" (fieldAt fs 14)
  let accel_y ← reqFloat "ACCEL_Y" (fieldAt fs 15)
  let mag_r ← reqFloat "MAG_R" (fieldAt fs 16)
  let mag_p ← reqFloat "MAG_P" (fieldAt fs 17)
  let mag_y ← reqFloat "MAG_Y" (fieldAt fs 18)
  let gps_alt ← reqFloat "GPS_ALT" (fieldAt fs 20)
  let lat ← reqFloat "LAT" (fieldAt fs 21)
  let lon ← reqFloat "LON" (fieldAt fs 22)
  let sats ← reqInteger "SATS" (fieldAt fs 23)
  let battery ← reqInteger "BATTERY" (fieldAt fs 24)
  let geofence_breach ← reqInteger "GEOFENCE_BREACH" (fieldAt fs 27)
  let detection_flag ← reqInteger "DETECTION_FLAG" (fieldAt fs 29)
  let detection_type ← reqDetectionType (fieldAt fs 30)
  let detection_conf ← reqFloat "DETECTION_CONF" (fieldAt fs 31)
  let detection_lat ← reqFloat "DETECTION_LAT" (fieldAt fs 32)
  let detection_lon ← reqFloat "DETECTION_LON" (fieldAt fs 33)
  Except.ok
    { drone_id := drone_id
      team_id := String.mk (fieldAt fs 1)
      mission_time := String.mk (fieldAt fs 2)
      packet_count := packet_count
      mode := String.mk (fieldAt fs 4)
      state := String.mk (fieldAt fs 5)
      altitude := altitude
      temp := temp
      pressure := pressure
      voltage := voltage
      gyro_r := gyro_r
      gyro_p := gyro_p
      gyro_y := gyro_y
      accel_r := accel_r
      accel_p := accel_p
      accel_y := accel_y
      mag_r := mag_r
      mag_p := mag_p
      mag_y := mag_y
      gps_time := String.mk (fieldAt fs 19)
      gps_alt := gps_alt
      lat := lat
      lon := lon
      sats := sats
      battery := battery
      link_status := String.mk (fieldAt fs 25)
      autonomy_mode := String.mk (fieldAt fs 26)
      geofence_breach := geofence_breach
      payload_status := String.mk (fieldAt fs 28)
      detection_flag := detection_flag
      detection_type := detection_type
      detection_conf := detection_conf
      detection_lat := detection_lat
      detection_lon := detection_lon
      cmd_echo := String.mk (fieldAt fs 34) }

/-- Modelled from the spec: "Numeric range validation (battery 0-100,
confidence 0.0-1.0, lat/lon ranges) occurs after structural parse;
violations fail with `FieldRangeError{field_name, value}`." -/
def rangeCheck (s : SpecDroneState) : Except DecodeError Unit :=
  if s.battery < 0 ∨ 100 < s.battery then
    Except.error (DecodeError.FieldRangeError "BATTERY" (s.battery : Rat))
  else if s.detection_conf < 0 ∨ 1 < s.detection_conf then
    Except.error (DecodeError.FieldRangeError "DETECTION_CONF" s.detection_conf)
  else if s.lat < -90 ∨ 90 < s.lat then
    Except.error (DecodeError.FieldRangeError "LAT" s.lat)
  else if s.lon < -180 ∨ 180 < s.lon then
    Except.error (DecodeError.FieldRangeError "LON" s.lon)
  else if s.detection_lat < -90 ∨ 90 < s.detection_lat then
    Except.error (DecodeError.FieldRangeError "DETECTION_LAT" s.detection_lat)
  else if s.detection_lon < -180 ∨ 180 < s.detection_lon then
    Except.error (DecodeError.FieldRangeError "DETECTION_LON" s.detection_lon)
  else Except.ok ()

/-- Modelled from the spec: the optional embedded `DetectionEvent` a
successful decode returns "when the detection flag field is truthy and
detection type ≠ NONE"; the timestamp is the raw packet's arrival time. -/
def mkEvent (ts : Nat) (s : SpecDroneState) : Option SpecDetectionEvent :=
  if s.detection_flag ≠ 0 ∧ s.detection_type ≠ "NONE" then
    some { timestamp := ts
           drone_id := s.drone_id
           detection_type := s.detection_type
           confidence := s.detection_conf
           lat := s.detection_lat
           lon := s.detection_lon }
  else none

/-- Modelled from the spec: the Packet Codec
`decode(raw: text) -> Result<DroneState, DecodeError>` — split on the
delimiter, fail with `FieldCountMismatch` if the split count ≠ 35, parse
each field, range-validate, and return the snapshot plus optional embedded
detection event. `ts` is the raw packet's arrival timestamp. -/
def decode (ts : Nat) (raw : String) :
    Except DecodeError (SpecDroneState × Option SpecDetectionEvent) :=
  let fs := splitFields raw
  if fs.length = 35 then
    match parseFields fs with
    | Except.error e => Except.error e
    | Except.ok snap =>
      match rangeCheck snap with
      | Except.error e => Except.error e
      | Except.ok _ => Except.ok (snap, mkEvent ts snap)
  else Except.error (DecodeError.FieldCountMismatch fs.length)

/-- Modelled from the spec: the Drone State Store, latest snapshot per
drone id. -/
abbrev DroneStateStore := Int → Option SpecDroneState

/-- Accessor `get(drone_id)`, returning a snapshot copy. -/
def DroneStateStore.get (st : DroneStateStore) (id : Int) :
    Option SpecDroneState :=
  st id

/-- Atomic replacement of the stored state for a drone id. -/
def DroneStateStore.update (st : DroneStateStore) (snap : SpecDroneState) :
    DroneStateStore :=
  fun i => if i = snap.drone_id then some snap else st i

/-- Modelled from the spec: `apply(snapshot) -> ApplyResult` — reject with
`StalePacket` if the packet sequence count is ≤ the currently stored count
for that drone id, unless the store has no prior record for that id;
otherwise replace atomically. -/
def DroneStateStore.apply (snap : SpecDroneState) (st : DroneStateStore) :
    Except ApplyError DroneStateStore :=
  match st snap.drone_id with
  | none => Except.ok (st.update snap)
  | some old =>
    if snap.packet_count ≤ old.packet_count then Except.error ApplyError.StalePacket
    else Except.ok (st.update snap)

/-- The store with no prior record for any drone id. -/
def emptyStore : DroneStateStore := fun _ => none

/-- Modelled from the spec: one Ingestion Scheduler step over the store —
decode the raw line and on success apply; on decode or apply failure the
store is left unchanged (errors become counters/log entries). -/
def ingest (ts : Nat) (raw : String) (st : DroneStateStore) : DroneStateStore :=
  match decode ts raw with
  | Except.error _ => st
  | Except.ok (snap, _) =>
    match DroneStateStore.apply snap st with
    | Except.error _ => st
    | Except.ok st' => st'

/-- Modelled from the spec: the Persistence Sink — append-friendly storage
for telemetry snapshots, detection events and command-echo history, each
queryable by drone id and time range. Telemetry rows carry their arrival
timestamp. -/
structure MissionDatabase where
  telemetry : List (Nat × SpecDroneState)
  detections : List SpecDetectionEvent
  commands : List (Nat × String)

/-- The freshly created database, with no rows. -/
def MissionDatabase.empty : MissionDatabase where
  telemetry := []
  detections := []
  commands := []

/-- Modelled from the spec: `log_telemetry` appends the snapshot (with its
arrival timestamp) to durable storage. -/
def MissionDatabase.log_telemetry (db : MissionDatabase) (ts : Nat)
    (snap : SpecDroneState) : MissionDatabase :=
  { db with telemetry := db.telemetry ++ [(ts, snap)] }

/-- Modelled from the spec: `log_detection` appends the detection event to
durable storage. -/
def MissionDatabase.log_detection (db : MissionDatabase)
    (ev : SpecDetectionEvent) : MissionDatabase :=
  { db with detections := db.detections ++ [ev] }

/-- Telemetry rows for a drone id whose timestamp lies in `[lo, hi]`. -/
def MissionDatabase.queryTelemetry (db : MissionDatabase) (id : Int)
    (lo hi : Nat) : List (Nat × SpecDroneState) :=
  db.telemetry.filter
    (fun p => decide (p.2.drone_id = id) && decide (lo ≤ p.1) && decide (p.1 ≤ hi))

/-- Detection events in `[lo, hi]`, optionally restricted to one drone id. -/
def MissionDatabase.queryDetections (db : MissionDatabase) (id : Option Int)
    (lo hi : Nat) : List SpecDetectionEvent :=
  db.detections.filter
    (fun ev =>
      (match id with
       | none => true
       | some i => decide (ev.drone_id = i)) &&
      decide (lo ≤ ev.timestamp) && decide (ev.timestamp ≤ hi))

/-- A concrete well-formed 35-field record, used to witness the pipeline
theorems on an explicit input. -/
def sampleRaw : String :=
  "1,1000,00:01:02,5,AUTO,FLIGHT,12.5,25.0,1013.2,11.1,0.1,0.2,0.3,0.0,0.0,9.8,0.4,0.5,0.6,00:01:03,13.0,10.5,76.5,8,85,GOOD,AUTO,0,NONE,1,CROP,0.87,10.5,76.5,CMD"

/-- The snapshot `decode` produces from `sampleRaw`. -/
def sampleSnap : SpecDroneState where
  drone_id := 1
  team_id := "1000"
  mission_time := "00:01:02"
  packet_count := 5
  mode := "AUTO"
  state := "FLIGHT"
  altitude := 25 / 2
  temp := 25
  pressure := 5066 / 5
  voltage := 111 / 10
  gyro_r := 1 / 10
  gyro_p := 1 / 5
  gyro_y := 3 / 10
  accel_r := 0
  accel_p := 0
  accel_y := 49 / 5
  mag_r := 2 / 5
  mag_p := 1 / 2
  mag_y := 3 / 5
  gps_time := "00:01:03"
  gps_alt := 13
  lat := 21 / 2
  lon := 153 / 2
  sats := 8
  battery := 85
  link_status := "GOOD"
  autonomy_mode := "AUTO"
  geofence_breach := 0
  payload_status := "NONE"
  detection_flag := 1
  detection_type := "CROP"
  detection_conf := 87 / 100
  detection_lat := 21 / 2
  detection_lon := 153 / 2
  cmd_echo := "CMD"

/-- The detection event embedded in `sampleRaw` at arrival time 0. -/
def sampleEvent : SpecDetectionEvent where
  timestamp := 0
  drone_id := 1
  detection_type := "CROP"
  confidence := 87 / 100
  lat := 21 / 2
  lon := 153 / 2

example : decode 0 sampleRaw = Except.ok (sampleSnap, some sampleEvent) := by
  with_unfolding_all rfl

/-- Successful decode forces: 35 fields, a structural parse yielding exactly
the returned snapshot, a passed range check, and the embedded event rule. -/
theorem decode_eq_ok {ts : Nat} {raw : String} {snap : SpecDroneState}
    {ev : Option SpecDetectionEvent}
    (h : decode ts raw = Except.ok (snap, ev)) :
    (splitFields raw).length = 35 ∧
    parseFields (splitFields raw) = Except.ok snap ∧
    rangeCheck snap = Except.ok () ∧ ev = mkEvent ts snap := by
  simp only [decode] at h
  split at h
  · rename_i hl
    split at h
    · exact Except.noConfusion h
    · rename_i snap0 hp
      split at h
      · exact Except.noConfusion h
      · rename_i u hr
        have hpair := Except.ok.inj h
        have hsnap : snap0 = snap := congrArg Prod.fst hpair
        have hev : mkEvent ts snap0 = ev := congrArg Prod.snd hpair
        subst hsnap
        refine ⟨hl, hp, ?_, hev.symm⟩
        rw [hr]
  · exact Except.noConfusion h

/-- The event embedded by a decode is present exactly when the detection
flag is truthy and the detection type is not NONE. -/
theorem mkEvent_isSome (ts : Nat) (s : SpecDroneState) :
    (mkEvent ts s).isSome = true ↔
      s.detection_flag ≠ 0 ∧ s.detection_type ≠ "NONE" := by
  unfold mkEvent
  split
  · rename_i hc
    simpa using hc
  · rename_i hc
    simpa using hc

/-- Lemma: `apply` succeeds whenever the store holds no newer-or-equal
count for the snapshot's drone id. -/
theorem apply_ok_of_advance {snap : SpecDroneState} {st : DroneStateStore}
    (h : ∀ old, DroneStateStore.get st snap.drone_id = some old →
      old.packet_count < snap.packet_count) :
    DroneStateStore.apply snap st = Except.ok (st.update snap) := by
  unfold DroneStateStore.apply
  cases hc : st snap.drone_id with
  | none => rfl
  | some old =>
    have hlt := h old hc
    show (if snap.packet_count ≤ old.packet_count then
        Except.error ApplyError.StalePacket
      else Except.ok (st.update snap)) = Except.ok (st.update snap)
    rw [if_neg (not_le.mpr hlt)]

/-- Reading back the id just written returns the written snapshot. -/
theorem get_update_self (st : DroneStateStore) (snap : SpecDroneState) :
    (st.update snap).get snap.drone_id = some snap := by
  unfold DroneStateStore.get DroneStateStore.update
  simp

/-- C1: for every well-formed 35-field record, `decode` returns the
fully-populated snapshot equal to the parsed field values (with the embedded
detection event exactly when the flag is truthy and the type is not NONE),
and applying that snapshot leaves the stored state for that drone id equal
to the decoded values. -/
theorem decode_apply_roundtrip (ts : Nat) (raw : String)
    (st : DroneStateStore) (snap : SpecDroneState)
    (ev : Option SpecDetectionEvent)
    (hdec : decode ts raw = Except.ok (snap, ev))
    (hadv : ∀ old, DroneStateStore.get st snap.drone_id = some old →
      old.packet_count < snap.packet_count) :
    parseFields (splitFields raw) = Except.ok snap ∧
    (ev.isSome = true ↔
      snap.detection_flag ≠ 0 ∧ snap.detection_type ≠ "NONE") ∧
    ∃ st', DroneStateStore.apply snap st = Except.ok st' ∧
      DroneStateStore.get st' snap.drone_id = some snap := by
  obtain ⟨hl, hp, hr, hev⟩ := decode_eq_ok hdec
  refine ⟨hp, ?_, st.update snap, apply_ok_of_advance hadv, get_update_self st snap⟩
  rw [hev]
  exact mkEvent_isSome ts snap

/-- C1 witness: the sample record decodes, its snapshot equals the parsed
fields, the embedded CROP event is present, and applying it to the empty
store makes `get 1` return exactly the decoded snapshot. -/
theorem decode_apply_roundtrip_witness :
    parseFields (splitFields sampleRaw) = Except.ok sampleSnap ∧
    ((some sampleEvent).isSome = true ↔
      sampleSnap.detection_flag ≠ 0 ∧ sampleSnap.detection_type ≠ "NONE") ∧
    ∃ st', DroneStateStore.apply sampleSnap emptyStore = Except.ok st' ∧
      DroneStateStore.get st' sampleSnap.drone_id = some sampleSnap :=
  decode_apply_roundtrip 0 sampleRaw emptyStore sampleSnap (some sampleEvent)
    (by with_unfolding_all rfl)
    (fun old h => Option.noConfusion h)

/-- A record with fewer than 35 comma-separated fields. -/
def shortRaw : String := "1,2,3"

/-- C2: a record that splits into fewer than 35 fields fails decode with
`FieldCountMismatch`, and an ingestion step over it leaves the drone state
store unchanged. -/
theorem short_record_field_count_mismatch (ts : Nat) (raw : String)
    (st : DroneStateStore) (h : (splitFields raw).length < 35) :
    decode ts raw =
      Except.error (DecodeError.FieldCountMismatch (splitFields raw).length) ∧
    ingest ts raw st = st := by
  have hne : ¬ (splitFields raw).length = 35 := Nat.ne_of_lt h
  have hd : decode ts raw =
      Except.error (DecodeError.FieldCountMismatch (splitFields raw).length) := by
    simp only [decode]
    rw [if_neg hne]
  exact ⟨hd, by simp only [ingest, hd]⟩

/-- C2 witness: the three-field record `"1,2,3"` fails with
`FieldCountMismatch 3` and leaves the empty store unchanged. -/
theorem short_record_field_count_mismatch_witness :
    decode 0 shortRaw =
      Except.error (DecodeError.FieldCountMismatch (splitFields shortRaw).length) ∧
    ingest 0 shortRaw emptyStore = emptyStore :=
  short_record_field_count_mismatch 0 shortRaw emptyStore (by decide)

/-- C4: a snapshot applied successfully and then applied again (identical
packet_count) is rejected the second time with `StalePacket`, the store
retaining the first snapshot; in general a snapshot whose packet sequence
count is ≤ the stored count for its drone id is rejected unless no prior
record exists for that id. -/
theorem stale_packet_replay :
    (∀ (snap : SpecDroneState) (st st' : DroneStateStore),
      DroneStateStore.apply snap st = Except.ok st' →
      DroneStateStore.apply snap st' = Except.error ApplyError.StalePacket ∧
      DroneStateStore.get st' snap.drone_id = some snap) ∧
    (∀ (snap old : SpecDroneState) (st : DroneStateStore),
      DroneStateStore.get st snap.drone_id = some old →
      snap.packet_count ≤ old.packet_count →
      DroneStateStore.apply snap st = Except.error ApplyError.StalePacket) ∧
    (∀ (snap : SpecDroneState) (st : DroneStateStore),
      DroneStateStore.get st snap.drone_id = none →
      DroneStateStore.apply snap st = Except.ok (st.update snap)) := by
  have hstale : ∀ (snap old : SpecDroneState) (st : DroneStateStore),
      DroneStateStore.get st snap.drone_id = some old →
      snap.packet_count ≤ old.packet_count →
      DroneStateStore.apply snap st = Except.error ApplyError.StalePacket := by
    intro snap old st h hle
    unfold DroneStateStore.get at h
    unfold DroneStateStore.apply
    rw [h]
    show (if snap.packet_count ≤ old.packet_count then
        Except.error ApplyError.StalePacket
      else Except.ok (st.update snap)) = Except.error ApplyError.StalePacket
    rw [if_pos hle]
  refine ⟨?_, hstale, ?_⟩
  · intro snap st st' h
    have hst' : st' = st.update snap := by
      unfold DroneStateStore.apply at h
      split at h
      · exact (Except.ok.inj h).symm
      · split at h
        · exact Except.noConfusion h
        · exact (Except.ok.inj h).symm
    subst hst'
    refine ⟨?_, get_update_self st snap⟩
    exact hstale snap snap (st.update snap) (get_update_self st snap) le_rfl
  · intro snap st h
    unfold DroneStateStore.get at h
    unfold DroneStateStore.apply
    rw [h]

/-- The store after the sample snapshot has been applied once. -/
def sampleStore : DroneStateStore := DroneStateStore.update emptyStore sampleSnap

/-- C4 witness: applying the sample snapshot to the empty store succeeds;
replaying the identical snapshot fails with `StalePacket` and the store
still returns the first snapshot for drone id 1. -/
theorem stale_packet_replay_witness :
    DroneStateStore.apply sampleSnap sampleStore =
      Except.error ApplyError.StalePacket ∧
    DroneStateStore.get sampleStore sampleSnap.drone_id = some sampleSnap :=
  stale_packet_replay.1 sampleSnap emptyStore sampleStore rfl

/-- C5: `log_telemetry` and `log_detection` record the given snapshot and
detection event so that each is subsequently retrievable by drone id and
time range. -/
theorem log_then_query_retrievable (db : MissionDatabase) (ts : Nat)
    (snap : SpecDroneState) (ev : SpecDetectionEvent) (lo hi : Nat)
    (h1 : lo ≤ ts) (h2 : ts ≤ hi)
    (h3 : lo ≤ ev.timestamp) (h4 : ev.timestamp ≤ hi) :
    (ts, snap) ∈ (db.log_telemetry ts snap).queryTelemetry snap.drone_id lo hi ∧
    ev ∈ (db.log_detection ev).queryDetections (some ev.drone_id) lo hi := by
  constructor
  · unfold MissionDatabase.log_telemetry MissionDatabase.queryTelemetry
    rw [List.mem_filter]
    refine ⟨by simp, ?_⟩
    simp [h1, h2]
  · unfold MissionDatabase.log_detection MissionDatabase.queryDetections
    rw [List.mem_filter]
    refine ⟨by simp, ?_⟩
    simp [h3, h4]

/-- C5 witness: after logging the sample snapshot at time 5 and the sample
event at time 0 into the empty database, querying drone id 1 over the time
range `[0, 10]` retrieves each of them. -/
theorem log_then_query_retrievable_witness :
    (5, sampleSnap) ∈
      (MissionDatabase.empty.log_telemetry 5 sampleSnap).queryTelemetry
        sampleSnap.drone_id 0 10 ∧
    sampleEvent ∈
      (MissionDatabase.empty.log_detection sampleEvent).queryDetections
        (some sampleEvent.drone_id) 0 10 :=
  log_then_query_retrievable MissionDatabase.empty 5 sampleSnap sampleEvent 0 10
    (by decide) (by decide) (by decide) (by decide)

/-- The spec's data-model invariant, read over the stub's program state:
every held `DroneState` has battery in [0,100], lat in [-90,90], lon in
[-180,180]; every held `DetectionEvent` has confidence in [0.0,1.0]. -/
def gcsStateInvariant (g : NIDAR_GCS) : Prop :=
  (∀ i ds, g.drone_states i = some ds →
    0 ≤ ds.battery ∧ ds.battery ≤ 100 ∧
    (-90 : Rat) ≤ ds.lat ∧ ds.lat ≤ 90 ∧
    (-180 : Rat) ≤ ds.lon ∧ ds.lon ≤ 180) ∧
  (∀ ev ∈ g.detection_events, (0 : Rat) ≤ ev.confidence ∧ ev.confidence ≤ 1)

/-- C6: in every reachable program state of the stub, every held
`DroneState` satisfies the battery/lat/lon ranges and every held
`DetectionEvent` satisfies the confidence range. -/
theorem reachable_state_invariant (g : NIDAR_GCS)
    (h : NIDAR_GCS.Reachable g) : gcsStateInvariant g := by
  induction h with
  | init =>
    constructor
    · intro i ds hds
      simp only [NIDAR_GCS.init] at hds
      split at hds
      · cases Option.some.inj hds
        with_unfolding_all decide
      · split at hds
        · cases Option.some.inj hds
          with_unfolding_all decide
        · exact Option.noConfusion hds
    · intro ev hev
      simp only [NIDAR_GCS.init] at hev
      exact absurd hev (List.not_mem_nil ev)
  | tick _ ih => exact ih

/-- C6 witness: the invariant holds at the constructed initial state. -/
theorem reachable_state_invariant_witness :
    gcsStateInvariant NIDAR_GCS.init :=
  reachable_state_invariant NIDAR_GCS.init NIDAR_GCS.Reachable.init

/-- Drone-state entries exactly as `NIDAR_GCS.__init__` creates them —
ids 1 and 2 with all defaults — and never changed afterwards. -/
def dronesDefaultFrame (g : NIDAR_GCS) : Prop :=
  g.drone_states = NIDAR_GCS.init.drone_states ∧
  g.drone_states 1 = some
    { drone_id := 1, team_id := "1000", mission_time := "--:--:--",
      altitude := 0, battery := 0, lat := 0, lon := 0,
      link_status := "GOOD", autonomy_mode := "AUTO",
      geofence_breach := 0, payload_status := "NONE" } ∧
  g.drone_states 2 = some
    { drone_id := 2, team_id := "1000", mission_time := "--:--:--",
      altitude := 0, battery := 0, lat := 0, lon := 0,
      link_status := "GOOD", autonomy_mode := "AUTO",
      geofence_breach := 0, payload_status := "NONE" } ∧
  ∀ i, i ≠ 1 → i ≠ 2 → g.drone_states i = none

/-- C7: at construction a default `DroneState` exists exactly for drone
ids 1 and 2 (team_id "1000", altitude 0, battery 0, lat 0, lon 0,
link_status "GOOD", autonomy_mode "AUTO", geofence_breach 0, payload_status
"NONE"), and in every reachable state the entries are exactly the ones
created at start: nothing in the stub ever mutates or removes them (in
particular no unsuccessful decode does). -/
theorem known_drones_default_and_preserved (g : NIDAR_GCS)
    (h : NIDAR_GCS.Reachable g) : dronesDefaultFrame g := by
  induction h with
  | init =>
    refine ⟨rfl, rfl, rfl, ?_⟩
    intro i h1 h2
    simp only [NIDAR_GCS.init]
    rw [if_neg h1, if_neg h2]
  | tick _ ih => exact ih

/-- C7 witness: the frame property holds at the constructed initial
state. -/
theorem known_drones_default_and_preserved_witness :
    dronesDefaultFrame NIDAR_GCS.init :=
  known_drones_default_and_preserved NIDAR_GCS.init NIDAR_GCS.Reachable.init

/-- C8: the telemetry timer period is 1000 ms and its callback
`update_telemetry` is a no-op: after each tick the whole program state, and
in particular `drone_states` and `detection_events`, is unchanged. -/
theorem telemetry_timer_noop :
    NIDAR_GCS.telemetry_timer_period_ms = 1000 ∧
    ∀ g : NIDAR_GCS, NIDAR_GCS.update_telemetry g = g ∧
      (NIDAR_GCS.update_telemetry g).drone_states = g.drone_states ∧
      (NIDAR_GCS.update_telemetry g).detection_events = g.detection_events :=
  ⟨rfl, fun _ => ⟨rfl, rfl, rfl⟩⟩

/-- C3: the parser's field schema holds exactly 35 field names, in exactly
the fixed order of the telemetry wire format. -/
theorem csv_fields_schema :
    TelemetryParser.CSV_FIELDS.length = 35 ∧
    TelemetryParser.CSV_FIELDS =
      ["DRONE_ID", "TEAM_ID", "MISSION_TIME", "PACKET_COUNT", "MODE",
       "STATE", "ALTITUDE", "TEMP", "PRESSURE", "VOLTAGE",
       "GYRO_R", "GYRO_P", "GYRO_Y", "ACCEL_R", "ACCEL_P", "ACCEL_Y",
       "MAG_R", "MAG_P", "MAG_Y", "GPS_TIME", "GPS_ALT", "LAT", "LON",
       "SATS", "BATTERY", "LINK_STATUS", "AUTONOMY_MODE",
       "GEOFENCE_BREACH", "PAYLOAD_STATUS", "DETECTION_FLAG",
       "DETECTION_TYPE", "DETECTION_CONF", "DETECTION_LAT",
       "DETECTION_LON", "CMD_ECHO"] :=
  ⟨rfl, rfl⟩

/-- C9: for every input string, including malformed records, the stub
`parse_packet` terminates normally with a value — the exception channel is
never used, so decode errors cannot escape as crashes. -/
theorem parse_packet_total_no_exception :
    ∀ s : String, ∃ v, TelemetryParser.parse_packet s = Except.ok v :=
  fun _ => ⟨none, rfl⟩

/-- C10: for every input string the stub `parse_packet` returns `None`: no
input ever yields a `DroneState`, so no drone-state update or
`DetectionEvent` can originate from a parsed packet in this program. -/
theorem parse_packet_always_none :
    ∀ s : String, TelemetryParser.parse_packet s = Except.ok none :=
  fun _ => rfl
